import Mathlib

/-!
Shallow embedding of the synchronization logic of the `PumpControl`
component (src/unnamed/part_000): snapshot fetching, the write-verify-retry
executor `updateThingSpeak` (inner `attemptUpdate` / `verifyUpdate`), and the
`handleModeChange` / `handlePumpToggle` handlers.

Modelling conventions:
- React state setters become explicit state passing on `CState`; the two
  `useRef` cells (`modeChangeInProgress`, `checkInterval`) are fields of the
  same state record (`checkInterval` is modelled as the Bool "a timer is
  installed", since only its null-ness is ever observed).
- The network is an oracle `Env`: `reads n` is the result of the n-th GET of
  `feeds/last.json` (error = non-2xx or transport failure), `writes n` the
  plain-text body of the n-th POST `/update` (error likewise), and `times n`
  the wall-clock ISO timestamp taken when the n-th write is assembled.
  Read and write counters are threaded in `NetState`.
- `await`ed sleeps only pass time; they are dropped (time is not modelled).
- A JS value of type `string | undefined` is `Option String` (none =
  undefined/absent).  `Number(x)` is modelled by `jsNumber` / `jsNumOpt`
  returning `Option Int` with `none` = NaN; this is faithful for the strings
  the channel carries (decimal integers, the empty string, and non-numeric
  garbage), which is all the control flow ever compares.
- An update payload `Partial<ChannelData>` is an association list whose list
  order is the JS `Object.keys` insertion order.
-/

namespace Irrig

/-- The keys of the `ChannelData` interface. -/
inductive Field where
  | field1 | field2 | field3 | field4 | field5 | field6 | field7 | createdAt
deriving DecidableEq, Repr

/-- `interface ChannelData`: seven optional string fields plus `created_at`. -/
structure ChannelData where
  field1 : Option String := none
  field2 : Option String := none
  field3 : Option String := none
  field4 : Option String := none
  field5 : Option String := none
  field6 : Option String := none
  field7 : Option String := none
  created_at : Option String := none
deriving DecidableEq, Repr

/-- JS property access `d[f]` for a known key. -/
def ChannelData.get (d : ChannelData) : Field → Option String
  | .field1 => d.field1
  | .field2 => d.field2
  | .field3 => d.field3
  | .field4 => d.field4
  | .field5 => d.field5
  | .field6 => d.field6
  | .field7 => d.field7
  | .createdAt => d.created_at

/-- An update payload `Partial<ChannelData>`: keys in `Object.keys` order. -/
abbrev Upd := List (Field × String)

/-- Value of a list of decimal digit characters; `none` if empty or any
character is not a digit. -/
def decDigits (cs : List Char) : Option Nat :=
  if cs = [] then none
  else if cs.all Char.isDigit then
    some (cs.foldl (fun n c => 10 * n + (c.toNat - 48)) 0)
  else none

/-- JS `Number(s)` on a string, `none` = NaN.  Faithful for the empty /
whitespace string (which JS coerces to 0) and optionally signed decimal
integers; non-numeric strings give NaN.  (Fractional literals are outside
the channel's value range and are not modelled.) -/
def jsNumber (s : String) : Option Int :=
  let cs := ((s.data.dropWhile Char.isWhitespace).reverse.dropWhile
    Char.isWhitespace).reverse
  match cs with
  | [] => some 0
  | '-' :: rest => (decDigits rest).map fun n => -(n : Int)
  | '+' :: rest => (decDigits rest).map fun n => (n : Int)
  | _ => (decDigits cs).map fun n => (n : Int)

/-- JS `Number(x)` for `x : string | undefined` (`Number(undefined)` = NaN). -/
def jsNumOpt : Option String → Option Int
  | none => none
  | some s => jsNumber s

/-- The write-rejection test `Number(result) <= 0`: false for NaN. -/
def numLEzero : Option Int → Bool
  | none => false
  | some n => decide (n ≤ 0)

/-- `Object.keys(updates)[0]` — `none` when the payload is empty. -/
def updFirstKey (u : Upd) : Option Field :=
  u.head?.map Prod.fst

/-- `updates[f]` for a known key `f`. -/
def updLookup (u : Upd) (f : Field) : Option String :=
  (u.find? fun p => decide (p.1 = f)).map Prod.snd

/-- JS indexing `d[k]` when the key itself may be `undefined`
(`d[undefined]` is `undefined`). -/
def jsIndex (d : ChannelData) : Option Field → Option String
  | none => none
  | some f => d.get f

/-- JS indexing `u[k]` on the update payload with a possibly-undefined key. -/
def updIndex (u : Upd) : Option Field → Option String
  | none => none
  | some f => updLookup u f

/-- `verifyUpdate` (lines 136-140): re-read comparison
`newData[field] === updates[field]` with `field = Object.keys(updates)[0]`. -/
def verifyUpdate (newData : ChannelData) (updates : Upd) : Bool :=
  jsIndex newData (updFirstKey updates) == updIndex updates (updFirstKey updates)

/-- Spread merge `{...currentData, ...updates, created_at: now}` used to build
the write request's parameters (lines 118-123); the `api_key` parameter is
constant and omitted. -/
def mergeWrite (snap : ChannelData) (u : Upd) (now : String) : ChannelData where
  field1 := (updLookup u .field1).elim snap.field1 some
  field2 := (updLookup u .field2).elim snap.field2 some
  field3 := (updLookup u .field3).elim snap.field3 some
  field4 := (updLookup u .field4).elim snap.field4 some
  field5 := (updLookup u .field5).elim snap.field5 some
  field6 := (updLookup u .field6).elim snap.field6 some
  field7 := (updLookup u .field7).elim snap.field7 some
  created_at := some now

/-- Error message set by `fetchChannelData`'s catch block. -/
def fetchErrMsg : String :=
  "Impossible de récupérer les données. Veuillez réessayer."

/-- Error message set by `attemptUpdate` after the retry budget is spent. -/
def updateErrMsg : String :=
  "Échec de la mise à jour après plusieurs tentatives. Veuillez réessayer plus tard."

/-- The component's React state plus the two refs. -/
structure CState where
  channelData : ChannelData := {}
  loading : Bool := true
  updating : Bool := false
  error : Option String := none
  activeTab : String := "auto"
  modeChangeInProgress : Bool := false
  checkInterval : Bool := false
deriving DecidableEq, Repr

/-- The network oracle: results of successive reads and writes, and the
timestamp observed when each write is assembled. -/
structure Env where
  reads : Nat → Except Unit ChannelData
  writes : Nat → Except Unit String
  times : Nat → String

/-- Component state together with the read/write counters. -/
structure NetState where
  st : CState
  ri : Nat := 0
  wi : Nat := 0

/-- `data.field7 !== undefined ? Number(data.field7) : 0` (line 82). -/
def currentModeOf (d : ChannelData) : Option Int :=
  match d.field7 with
  | some v => jsNumber v
  | none => some 0

/-- `activeTab === "auto" ? 0 : 1` (line 83). -/
def expectedModeOf (s : CState) : Int :=
  if s.activeTab = "auto" then 0 else 1

/-- `fetchChannelData` (lines 65-102): one GET of the last feed entry.
Returns the new state, the advanced read counter, and the JS outcome
(`.error` = the function threw). On success the snapshot is replaced and,
if a mode change is in flight, the pending flag and the secondary timer are
cleared when the read mode matches the expected mode (lines 80-92). -/
def fetchChannelData (env : Env) (i : Nat) (s : CState) :
    CState × Nat × Except Unit ChannelData :=
  let s0 : CState := { s with loading := true, error := none }
  match env.reads i with
  | .error _ =>
      ({ s0 with loading := false, error := some fetchErrMsg }, i + 1, .error ())
  | .ok data =>
      let s1 : CState := { s0 with channelData := data }
      let s2 : CState :=
        if s1.modeChangeInProgress then
          if currentModeOf data = some (expectedModeOf s1) then
            { s1 with modeChangeInProgress := false, checkInterval := false }
          else s1
        else s1
      ({ s2 with loading := false }, i + 1, .ok data)

/-- The verification loop of `attemptUpdate` (lines 143-150): up to `k`
(source: 3) calls of `verifyUpdate`, each performing one fresh read; stops at
the first match.  `.error` = a re-read threw (propagates to the attempt's
catch); `.ok b` = loop finished with `verified = b`. -/
def verifyLoop (env : Env) (u : Upd) : Nat → NetState → NetState × Except Unit Bool
  | 0, ns => (ns, .ok false)
  | k + 1, ns =>
      match fetchChannelData env ns.ri ns.st with
      | (s1, i1, .error _) => ({ ns with st := s1, ri := i1 }, .error ())
      | (s1, i1, .ok newData) =>
          if verifyUpdate newData u then ({ ns with st := s1, ri := i1 }, .ok true)
          else verifyLoop env u k { ns with st := s1, ri := i1 }

/-- One iteration of `attemptUpdate`'s try block (lines 113-154): set the busy
flag, clear the error, fetch the snapshot, submit the merged write, test the
numeric response, then run the verification loop.  Also returns the list of
write requests issued (empty or a singleton), as the merged parameter
records.  `.error` = the try block threw (handled by the catch). -/
def oneAttempt (env : Env) (u : Upd) (ns : NetState) :
    NetState × Except Unit Unit × List ChannelData :=
  let s0 : CState := { ns.st with updating := true, error := none }
  match fetchChannelData env ns.ri s0 with
  | (s1, i1, .error _) => (⟨s1, i1, ns.wi⟩, .error (), [])
  | (s1, i1, .ok currentData) =>
      let req := mergeWrite currentData u (env.times ns.wi)
      let ns1 : NetState := ⟨s1, i1, ns.wi + 1⟩
      match env.writes ns.wi with
      | .error _ => (ns1, .error (), [req])
      | .ok body =>
          if numLEzero (jsNumber body) then (ns1, .error (), [req])
          else
            match verifyLoop env u 3 ns1 with
            | (ns2, .error _) => (ns2, .error (), [req])
            | (ns2, .ok true) => (ns2, .ok (), [req])
            | (ns2, .ok false) => (ns2, .error (), [req])

/-- `finally { setUpdating(false) }` applied to a threaded state. -/
def clearUpdating (ns : NetState) : NetState :=
  { ns with st := { ns.st with updating := false } }

/-- The catch block's terminal branch (lines 161-165): log, set the terminal
error message, return false (plus the finally clause). -/
def failState (ns : NetState) : NetState :=
  { ns with st := { ns.st with updating := false, error := some updateErrMsg } }

/-- The recursion of `attemptUpdate` (lines 112-169), made structural on an
explicit `fuel` bounding the remaining recursion depth.  The source recursion
`if (attempts < retries) return attemptUpdate()` (after `attempts++`) has
depth at most `retries - attempts - 1` from a call with counter `attempts`,
so with that canonical fuel (used by `attemptUpdate` below) the fuel-0
terminal branch under a true guard is never reached and the function is
exactly the source's.  The inter-attempt `delay` sleep only passes time.
Result: final state, the returned boolean, and the write requests issued. -/
def attemptGo (env : Env) (u : Upd) (retries : Nat) :
    Nat → Nat → NetState → NetState × Bool × List ChannelData
  | 0, _, ns =>
      match oneAttempt env u ns with
      | (ns1, .ok _, log) => (clearUpdating ns1, true, log)
      | (ns1, .error _, log) => (failState ns1, false, log)
  | fuel + 1, attempts, ns =>
      match oneAttempt env u ns with
      | (ns1, .ok _, log) => (clearUpdating ns1, true, log)
      | (ns1, .error _, log) =>
          if attempts + 1 < retries then
            let r := attemptGo env u retries fuel (attempts + 1) (clearUpdating ns1)
            (r.1, r.2.1, log ++ r.2.2)
          else
            (failState ns1, false, log)

/-- `attemptUpdate` entered with attempt counter `attempts` (source starts at
0): runs `attemptGo` at its canonical fuel. -/
def attemptUpdate (env : Env) (u : Upd) (retries attempts : Nat) (ns : NetState) :
    NetState × Bool × List ChannelData :=
  attemptGo env u retries (retries - (attempts + 1)) attempts ns

/-- `interface RetryOptions` with the defaults of line 109. -/
structure RetryOptions where
  retries : Nat := 5
  delay : Nat := 2000

/-- `updateThingSpeak` (lines 105-172): destructure the options and start the
attempt recursion with `attempts = 0`. -/
def updateThingSpeak (env : Env) (updates : Upd) (options : RetryOptions)
    (ns : NetState) : NetState × Bool × List ChannelData :=
  attemptUpdate env updates options.retries 0 ns

/-- `value === "auto" ? 0 : 1` (line 176). -/
def reqMode (value : String) : Int :=
  if value = "auto" then 0 else 1

/-- `handleModeChange` (lines 175-205).  Returns the final state, the
executor's boolean (true in the no-op branch, where the executor is not
invoked), and the write requests issued. -/
def handleModeChange (env : Env) (value : String) (ns : NetState) :
    NetState × Bool × List ChannelData :=
  let newMode : Int := reqMode value
  let s0 : CState := { ns.st with activeTab := value }
  if jsNumOpt s0.channelData.field7 ≠ some newMode then
    let s1 : CState := { s0 with modeChangeInProgress := true, updating := true }
    let r := updateThingSpeak env [(Field.field7, toString newMode)] ⟨20, 2000⟩
      { ns with st := s1 }
    let success := r.2.1
    let s2 : CState :=
      if success then r.1.st
      else { r.1.st with activeTab := if newMode = 0 then "manual" else "auto" }
    ({ r.1 with st := { s2 with modeChangeInProgress := false, updating := false } },
      success, r.2.2)
  else
    ({ ns with st := s0 }, true, [])

/-- `channelData.field5 === "1" ? "0" : "1"` (line 209). -/
def pumpNewState (d : ChannelData) : String :=
  if d.field5 = some "1" then "0" else "1"

/-- The failure rollback of `handlePumpToggle` (line 226):
`prev => ({ ...prev, field5: prev.field5 })`. -/
def pumpRevert (prev : ChannelData) : ChannelData :=
  { prev with field5 := prev.field5 }

/-- `handlePumpToggle` (lines 208-230). -/
def handlePumpToggle (env : Env) (ns : NetState) :
    NetState × Bool × List ChannelData :=
  let newState := pumpNewState ns.st.channelData
  let s0 : CState := { ns.st with updating := true }
  let r := updateThingSpeak env [(Field.field5, newState)] ⟨20, 2000⟩ { ns with st := s0 }
  let success := r.2.1
  let s2 : CState :=
    if success then r.1.st
    else { r.1.st with channelData := pumpRevert r.1.st.channelData }
  ({ r.1 with st := { s2 with updating := false } }, success, r.2.2)

/-! ## Concrete inputs used by witnesses and the counterexample -/

/-- A snapshot in auto mode with the pump off. -/
def dAuto : ChannelData := { field5 := some "0", field7 := some "0" }

/-- A snapshot whose pump field was observed as "1". -/
def dPumpOn : ChannelData := { field5 := some "1" }

/-- A snapshot with no mode field at all. -/
def dNoMode : ChannelData := { field5 := some "0" }

/-- An environment whose reads always return `dAuto` and whose write endpoint
always answers "0" (rejection). -/
def envRej : Env where
  reads := Function.const Nat (Except.ok dAuto)
  writes := Function.const Nat (Except.ok "0")
  times := Function.const Nat "2025-01-01T00:00:00Z"

/-- An environment whose reads always return `dAuto` and whose write endpoint
always answers the entry id "42". -/
def envAcc : Env where
  reads := Function.const Nat (Except.ok dAuto)
  writes := Function.const Nat (Except.ok "42")
  times := Function.const Nat "2025-01-01T00:00:00Z"

/-- An environment whose write endpoint answers a non-numeric body and whose
reads always return `dPumpOn`. -/
def envNaN : Env where
  reads := Function.const Nat (Except.ok dPumpOn)
  writes := Function.const Nat (Except.ok "abc")
  times := Function.const Nat "2025-01-01T00:00:00Z"

/-- Initial threaded state over the `dAuto` snapshot. -/
def ns0 : NetState := { st := { channelData := dAuto, loading := false } }

/-- Threaded state with a mode change already pending towards manual. -/
def nsPending : NetState :=
  { st := { channelData := dAuto, loading := false, activeTab := "auto",
            modeChangeInProgress := true, checkInterval := true } }

/-! ## C1 -/

/-- C1: the executor's verification step succeeds iff the freshly re-read
snapshot's value at the FIRST key of the update equals the submitted value
for that key (first conjunct), and no other key of the update is ever
compared: two re-read snapshots agreeing at the first key verify
identically (second conjunct). -/
theorem verify_checks_only_first_key :
    (∀ (d : ChannelData) (u : Upd) (f : Field) (v : String),
        updFirstKey u = some f → updLookup u f = some v →
        (verifyUpdate d u = true ↔ d.get f = some v)) ∧
    (∀ (d d' : ChannelData) (u : Upd),
        jsIndex d (updFirstKey u) = jsIndex d' (updFirstKey u) →
        verifyUpdate d u = verifyUpdate d' u) := by
  constructor
  · intro d u f v hf hv
    simp [verifyUpdate, hf, jsIndex, updIndex, hv]
  · intro d d' u h
    simp [verifyUpdate, h]

/-- Witness for C1 at a two-key update payload: only the first key
(`field5`, submitted value "1") decides verification. -/
theorem verify_checks_only_first_key_w :
    verifyUpdate dPumpOn [(Field.field5, "1"), (Field.field3, "9")] = true ↔
      dPumpOn.get Field.field5 = some "1" :=
  verify_checks_only_first_key.1 dPumpOn [(Field.field5, "1"), (Field.field3, "9")]
    Field.field5 "1" rfl rfl

/-! ## C5 -/

/-- C5: when the requested mode already equals the numeric value of the
current snapshot's `field7`, `handleModeChange` issues no write request and
the executor is never entered (the write counter does not move). -/
theorem mode_noop_when_matching (env : Env) (value : String) (ns : NetState)
    (h : jsNumOpt ns.st.channelData.field7 = some (reqMode value)) :
    (handleModeChange env value ns).2.2 = [] ∧
    (handleModeChange env value ns).1.wi = ns.wi := by
  simp [handleModeChange, h]

/-- Witness for C5: snapshot in auto mode (`field7 = "0"`), user selects
"auto" again. -/
theorem mode_noop_when_matching_w :
    (handleModeChange envRej "auto" ns0).2.2 = [] ∧
    (handleModeChange envRej "auto" ns0).1.wi = ns0.wi :=
  mode_noop_when_matching envRej "auto" ns0 (by decide)

/-! ## C7 -/

/-- C7: the pump toggle's failure rollback is the identity on the stored
snapshot — `pumpRevert` reassigns `field5` to its own value, so every field
is preserved (first conjunct); hence after a failed (or successful) toggle
the handler's final snapshot is exactly the snapshot the executor left
behind (second conjunct). -/
theorem pump_revert_is_noop :
    (∀ d : ChannelData, pumpRevert d = d) ∧
    (∀ (env : Env) (ns : NetState),
        (handlePumpToggle env ns).1.st.channelData =
          (updateThingSpeak env [(Field.field5, pumpNewState ns.st.channelData)]
            ⟨20, 2000⟩ { ns with st := { ns.st with updating := true } }).1.st.channelData) := by
  constructor
  · intro d; rfl
  · intro env ns
    simp only [handlePumpToggle]
    rw [apply_ite CState.channelData]
    simp [pumpRevert]

/-! ## C10 -/

/-- C10: while a mode change is pending with expected mode auto, a fetched
snapshot with no `field7` at all is read as mode 0, so the pending flag is
cleared and the secondary confirmation timer is stopped. -/
theorem absent_mode_clears_pending (env : Env) (i : Nat) (s : CState)
    (d : ChannelData) (hflag : s.modeChangeInProgress = true)
    (htab : s.activeTab = "auto") (hr : env.reads i = Except.ok d)
    (h7 : d.field7 = none) :
    (fetchChannelData env i s).1.modeChangeInProgress = false ∧
    (fetchChannelData env i s).1.checkInterval = false := by
  simp [fetchChannelData, hr, hflag, currentModeOf, h7, expectedModeOf, htab]

/-- Witness for C10: pending mode change towards auto, snapshot without a
mode field. -/
theorem absent_mode_clears_pending_w :
    (fetchChannelData envNaN 0 nsPending.st).1.modeChangeInProgress = false ∧
    (fetchChannelData envNaN 0 nsPending.st).1.checkInterval = false :=
  absent_mode_clears_pending envNaN 0 nsPending.st dPumpOn rfl rfl rfl rfl

/-! ## Helper lemmas about single attempts and the retry recursion -/

/-- A fetch that reports success did read the oracle successfully and
advanced the read counter. -/
theorem fetchChannelData_ok_reads (env : Env) (i : Nat) (s s' : CState)
    (i' : Nat) (d : ChannelData)
    (h : fetchChannelData env i s = (s', i', Except.ok d)) :
    env.reads i = Except.ok d ∧ i' = i + 1 := by
  unfold fetchChannelData at h
  cases henv : env.reads i with
  | error e => rw [henv] at h; simp at h
  | ok a =>
      rw [henv] at h
      simp only [Prod.mk.injEq] at h
      obtain ⟨-, h2, h3⟩ := h
      injection h3 with h4
      subst h4
      exact ⟨rfl, h2.symm⟩

/-- Conversely, when the oracle read succeeds the fetch reports that very
snapshot and advances the read counter. -/
theorem fetchChannelData_of_reads_ok (env : Env) (i : Nat) (s : CState)
    (d : ChannelData) (hr : env.reads i = Except.ok d) :
    ∃ s', fetchChannelData env i s = (s', i + 1, Except.ok d) :=
  ⟨_, by unfold fetchChannelData; rw [hr]⟩

/-- When the read succeeds and the write endpoint rejects (body parses to a
number ≤ 0), one attempt fails having issued exactly the one merged write
request, and both counters advance by one. -/
theorem oneAttempt_rejected (env : Env) (u : Upd) (ns : NetState)
    (d : ChannelData) (b : String)
    (hr : env.reads ns.ri = Except.ok d)
    (hw : env.writes ns.wi = Except.ok b)
    (hb : numLEzero (jsNumber b) = true) :
    ∃ s1 : CState, oneAttempt env u ns =
      (⟨s1, ns.ri + 1, ns.wi + 1⟩, Except.error (), [mergeWrite d u (env.times ns.wi)]) := by
  obtain ⟨s', hf⟩ := fetchChannelData_of_reads_ok env ns.ri
    { ns.st with updating := true, error := none } d hr
  refine ⟨s', ?_⟩
  simp [oneAttempt, hf, hw, hb]

/-- Under an environment whose reads all succeed and whose writes are all
rejected, the retry recursion (entered with `attempts < retries` and at
least the canonical fuel) returns `false`, issues exactly
`retries - attempts` write requests, sets the terminal error message and
clears the busy flag. -/
theorem attemptGo_rejected (env : Env) (u : Upd)
    (hr : ∀ n, ∃ d, env.reads n = Except.ok d)
    (hw : ∀ n, ∃ b, env.writes n = Except.ok b ∧ numLEzero (jsNumber b) = true) :
    ∀ (fuel retries attempts : Nat) (ns : NetState), attempts < retries →
      retries - (attempts + 1) ≤ fuel →
      (attemptGo env u retries fuel attempts ns).2.1 = false ∧
      (attemptGo env u retries fuel attempts ns).2.2.length = retries - attempts ∧
      (attemptGo env u retries fuel attempts ns).1.st.error = some updateErrMsg ∧
      (attemptGo env u retries fuel attempts ns).1.st.updating = false := by
  intro fuel
  induction fuel with
  | zero =>
      intro retries attempts ns hlt hfuel
      obtain ⟨d, hd⟩ := hr ns.ri
      obtain ⟨b, hb1, hb2⟩ := hw ns.wi
      obtain ⟨s1, hone⟩ := oneAttempt_rejected env u ns d b hd hb1 hb2
      have hra : retries - attempts = 1 := by omega
      simp [attemptGo, hone, failState, hra]
  | succ fuel ih =>
      intro retries attempts ns hlt hfuel
      obtain ⟨d, hd⟩ := hr ns.ri
      obtain ⟨b, hb1, hb2⟩ := hw ns.wi
      obtain ⟨s1, hone⟩ := oneAttempt_rejected env u ns d b hd hb1 hb2
      by_cases hg : attempts + 1 < retries
      · have hih := ih retries (attempts + 1)
          (clearUpdating ⟨s1, ns.ri + 1, ns.wi + 1⟩) hg (by omega)
        have hlen : retries - attempts = (retries - (attempts + 1)) + 1 := by omega
        simp [attemptGo, hone, hg, hih.1, hih.2.1, hih.2.2.1, hih.2.2.2, hlen]
      · have hra : retries - attempts = 1 := by omega
        simp [attemptGo, hone, hg, failState, hra]

/-! ## C2 -/

/-- C2: when every write attempt is rejected (each write response parses to a
number ≤ 0) while reads succeed, the executor performs exactly `retries`
attempts — issuing exactly `retries` write requests — then returns `false`
(a value, never an unhandled rejection: the embedding is a total function
into `Bool`) with the terminal error message set.  The fixed inter-attempt
delay only passes time and is not modelled. -/
theorem executor_all_rejected (env : Env) (u : Upd) (retries delay : Nat)
    (ns : NetState)
    (hr : ∀ n, ∃ d, env.reads n = Except.ok d)
    (hw : ∀ n, ∃ b, env.writes n = Except.ok b ∧ numLEzero (jsNumber b) = true)
    (hret : 0 < retries) :
    (updateThingSpeak env u ⟨retries, delay⟩ ns).2.1 = false ∧
    (updateThingSpeak env u ⟨retries, delay⟩ ns).2.2.length = retries ∧
    (updateThingSpeak env u ⟨retries, delay⟩ ns).1.st.error = some updateErrMsg := by
  have h := attemptGo_rejected env u hr hw (retries - 1) retries 0 ns hret (by omega)
  simpa [updateThingSpeak, attemptUpdate] using ⟨h.1, h.2.1, h.2.2.1⟩

/-- Witness for C2: the always-rejecting environment, default budget of 5
retries — 5 write requests, then `false` with the terminal message. -/
theorem executor_all_rejected_w :
    (updateThingSpeak envRej [(Field.field7, "1")] ⟨5, 2000⟩ ns0).2.1 = false ∧
    (updateThingSpeak envRej [(Field.field7, "1")] ⟨5, 2000⟩ ns0).2.2.length = 5 ∧
    (updateThingSpeak envRej [(Field.field7, "1")] ⟨5, 2000⟩ ns0).1.st.error =
      some updateErrMsg :=
  executor_all_rejected envRej [(Field.field7, "1")] 5 2000 ns0
    (fun _ => ⟨dAuto, rfl⟩) (fun _ => ⟨"0", rfl, by decide⟩) (by decide)

/-- Every attempt either issues no write (its initial fetch threw) or issues
exactly the single write obtained by merging the snapshot it just fetched
with the update payload, stamped with the time of assembly. -/
theorem oneAttempt_log (env : Env) (u : Upd) (ns : NetState) :
    (oneAttempt env u ns).2.2 = [] ∨
      ∃ d, env.reads ns.ri = Except.ok d ∧
        (oneAttempt env u ns).2.2 = [mergeWrite d u (env.times ns.wi)] := by
  simp only [oneAttempt]
  rcases hf : fetchChannelData env ns.ri { ns.st with updating := true, error := none }
    with ⟨s1, i1, r⟩
  cases r with
  | error e => left; rfl
  | ok d0 =>
      right
      refine ⟨d0, (fetchChannelData_ok_reads env ns.ri _ s1 i1 d0 hf).1, ?_⟩
      cases hwr : env.writes ns.wi with
      | error e => rfl
      | ok body =>
          by_cases hb : numLEzero (jsNumber body) = true
          · simp [hb]
          · rcases hv : verifyLoop env u 3 ⟨s1, i1, ns.wi + 1⟩ with ⟨ns2, vr⟩
            cases vr with
            | error e => simp [hb, hv]
            | ok ver => cases ver <;> simp [hb, hv]

/-- With no recursion budget left, the recursion's write log is the single
attempt's write log. -/
theorem attemptGo_zero_log (env : Env) (u : Upd) (retries attempts : Nat)
    (ns : NetState) :
    (attemptGo env u retries 0 attempts ns).2.2 = (oneAttempt env u ns).2.2 := by
  rcases h1 : oneAttempt env u ns with ⟨ns1, r, log⟩
  cases r <;> simp [attemptGo, h1]

/-- Every write request the retry recursion ever issues is the merge of a
snapshot read from the environment with the update payload, stamped with a
time drawn from the environment's clock. -/
theorem attemptGo_log (env : Env) (u : Upd) (retries : Nat) :
    ∀ (fuel attempts : Nat) (ns : NetState) (req : ChannelData),
      req ∈ (attemptGo env u retries fuel attempts ns).2.2 →
      ∃ k j d, env.reads k = Except.ok d ∧ req = mergeWrite d u (env.times j) := by
  intro fuel
  induction fuel with
  | zero =>
      intro attempts ns req hreq
      rw [attemptGo_zero_log] at hreq
      rcases oneAttempt_log env u ns with h | ⟨d, hd, h⟩ <;> rw [h] at hreq
      · simp at hreq
      · exact ⟨ns.ri, ns.wi, d, hd, by simpa using hreq⟩
  | succ fuel ih =>
      intro attempts ns req hreq
      rcases h1 : oneAttempt env u ns with ⟨ns1, r, log⟩
      have hlog : log = (oneAttempt env u ns).2.2 := by rw [h1]
      cases r with
      | ok v =>
          rw [show (attemptGo env u retries (fuel + 1) attempts ns).2.2 = log by
            simp [attemptGo, h1]] at hreq
          rcases oneAttempt_log env u ns with h | ⟨d, hd, h⟩ <;>
            rw [hlog, h] at hreq
          · simp at hreq
          · exact ⟨ns.ri, ns.wi, d, hd, by simpa using hreq⟩
      | error e =>
          by_cases hg : attempts + 1 < retries
          · rw [show (attemptGo env u retries (fuel + 1) attempts ns).2.2 =
                log ++ (attemptGo env u retries fuel (attempts + 1)
                  (clearUpdating ns1)).2.2 by simp [attemptGo, h1, hg]] at hreq
            rcases List.mem_append.1 hreq with hm | hm
            · rcases oneAttempt_log env u ns with h | ⟨d, hd, h⟩ <;>
                rw [hlog, h] at hm
              · simp at hm
              · exact ⟨ns.ri, ns.wi, d, hd, by simpa using hm⟩
            · exact ih (attempts + 1) (clearUpdating ns1) req hm
          · rw [show (attemptGo env u retries (fuel + 1) attempts ns).2.2 = log by
              simp [attemptGo, h1, hg]] at hreq
            rcases oneAttempt_log env u ns with h | ⟨d, hd, h⟩ <;>
              rw [hlog, h] at hreq
            · simp at hreq
            · exact ⟨ns.ri, ns.wi, d, hd, by simpa using hreq⟩

/-! ## C3 -/

/-- C3: every write request the executor submits is the merge of the
just-fetched full snapshot with the requested update — keys of the update
take precedence, every other field is carried over from the snapshot, and a
fresh `created_at` timestamp always wins (conjuncts 1-3); consequently a
second submission of the same update on top of the record written by the
first leaves every field outside the update (other than the timestamp)
equal to its original snapshot value (conjunct 4). -/
theorem executor_writes_merged (env : Env) (u : Upd) (options : RetryOptions)
    (ns : NetState) :
    (∀ req ∈ (updateThingSpeak env u options ns).2.2,
        ∃ k j d, env.reads k = Except.ok d ∧ req = mergeWrite d u (env.times j)) ∧
    (∀ (snap : ChannelData) (t : String) (f : Field), f ≠ Field.createdAt →
        (mergeWrite snap u t).get f = (updLookup u f).elim (snap.get f) some) ∧
    (∀ (snap : ChannelData) (t : String),
        (mergeWrite snap u t).get Field.createdAt = some t) ∧
    (∀ (snap : ChannelData) (t1 t2 : String) (f : Field),
        updLookup u f = none → f ≠ Field.createdAt →
        (mergeWrite (mergeWrite snap u t1) u t2).get f = snap.get f) := by
  refine ⟨?_, ?_, ?_, ?_⟩
  · intro req hreq
    exact attemptGo_log env u options.retries (options.retries - 1) 0 ns req hreq
  · intro snap t f hf
    cases f <;> first
      | exact absurd rfl hf
      | rfl
  · intro snap t; rfl
  · intro snap t1 t2 f hnone hf
    cases f <;> first
      | exact absurd rfl hf
      | simp [mergeWrite, ChannelData.get, hnone]

/-- Witness for C3: the one write issued by a single rejected attempt over
`envRej` is the merge of the fetched `dAuto` snapshot with the payload. -/
theorem executor_writes_merged_w :
    ∃ k j d, envRej.reads k = Except.ok d ∧
      mergeWrite dAuto [(Field.field7, "1")] "2025-01-01T00:00:00Z" =
        mergeWrite d [(Field.field7, "1")] (envRej.times j) :=
  (executor_writes_merged envRej [(Field.field7, "1")] ⟨1, 2000⟩ ns0).1
    (mergeWrite dAuto [(Field.field7, "1")] "2025-01-01T00:00:00Z") (by decide)

/-- A successful attempt short-circuits the retry recursion at every fuel. -/
theorem attemptGo_ok (env : Env) (u : Upd) (retries fuel attempts : Nat)
    (ns ns1 : NetState) (log : List ChannelData)
    (h : oneAttempt env u ns = (ns1, Except.ok (), log)) :
    attemptGo env u retries fuel attempts ns = (clearUpdating ns1, true, log) := by
  cases fuel <;> simp [attemptGo, h]

/-- The verification loop succeeds on its first re-read when that read's
snapshot passes `verifyUpdate`. -/
theorem verifyLoop_first_match (env : Env) (u : Upd) (k : Nat) (ns : NetState)
    (d : ChannelData) (h : env.reads ns.ri = Except.ok d)
    (hv : verifyUpdate d u = true) :
    ∃ s', verifyLoop env u (k + 1) ns = (⟨s', ns.ri + 1, ns.wi⟩, Except.ok true) := by
  obtain ⟨s', hf⟩ := fetchChannelData_of_reads_ok env ns.ri ns.st d h
  exact ⟨s', by simp [verifyLoop, hf, hv]⟩

/-- When the pre-write fetch succeeds, the write response is not rejected and
the first verification re-read matches, the attempt succeeds with exactly one
write issued and exactly two reads consumed. -/
theorem oneAttempt_verified_first (env : Env) (u : Upd) (ns : NetState)
    (d0 d1 : ChannelData) (b : String)
    (h0 : env.reads ns.ri = Except.ok d0)
    (h1 : env.reads (ns.ri + 1) = Except.ok d1)
    (hw : env.writes ns.wi = Except.ok b)
    (hb : numLEzero (jsNumber b) = false)
    (hv : verifyUpdate d1 u = true) :
    ∃ s2, oneAttempt env u ns =
      (⟨s2, ns.ri + 2, ns.wi + 1⟩, Except.ok (), [mergeWrite d0 u (env.times ns.wi)]) := by
  obtain ⟨s1, hf⟩ := fetchChannelData_of_reads_ok env ns.ri
    { ns.st with updating := true, error := none } d0 h0
  obtain ⟨s2, hvl⟩ := verifyLoop_first_match env u 2 ⟨s1, ns.ri + 1, ns.wi + 1⟩ d1 h1 hv
  refine ⟨s2, ?_⟩
  simp [oneAttempt, hf, hw, hb, hvl]

/-- Whenever the mode-toggle guard passes, the handler ends with the
pending-mode-change flag cleared, whatever happened in between (line 202). -/
theorem handleModeChange_flag (env : Env) (value : String) (ns : NetState)
    (hne : jsNumOpt ns.st.channelData.field7 ≠ some (reqMode value)) :
    (handleModeChange env value ns).1.st.modeChangeInProgress = false := by
  simp only [handleModeChange]
  rw [if_pos hne]

/-! ## C4 -/

/-- C4, counterexample to the claim as stated: starting from a state whose
pending-mode-change flag is set, a mode toggle towards manual (requested
mode 1) over an environment every one of whose reads returns the fixed
snapshot `dAuto` with `field7 = "0"` (numerically 0, never the requested 1)
and whose writes are all rejected ends with the flag CLEARED: the handler
clears it unconditionally after the write-verify cycle (line 202), so the
flag does not clear only on a matching fetched snapshot. -/
theorem modeFlag_cleared_without_matching_fetch :
    nsPending.st.modeChangeInProgress = true ∧
    envRej.reads = Function.const Nat (Except.ok dAuto) ∧
    dAuto.field7 = some "0" ∧ reqMode "manual" = 1 ∧ jsNumber "0" ≠ some 1 ∧
    (handleModeChange envRej "manual" nsPending).1.st.modeChangeInProgress = false := by
  have hne : jsNumOpt nsPending.st.channelData.field7 ≠ some (reqMode "manual") := by
    decide
  exact ⟨rfl, rfl, rfl, rfl, by decide, handleModeChange_flag envRej "manual" nsPending hne⟩

/-- C4, amended: a fetch clears the pending-mode-change flag exactly when the
flag was set and the fetched snapshot's mode — `Number(field7)`, defaulting
to 0 when the field is absent — equals the expected mode derived from the
active tab (which during a pending change is the requested mode), regardless
of which caller performed the fetch (first conjunct, stated for the one
shared fetch routine); in addition, the mode-toggle handler clears the flag
unconditionally at the end of its write-verify cycle, whatever its outcome
(second conjunct). -/
theorem modeFlag_clear_characterization :
    (∀ (env : Env) (i : Nat) (s : CState),
        ((fetchChannelData env i s).1.modeChangeInProgress = false ↔
          (s.modeChangeInProgress = false ∨
            ∃ d, (fetchChannelData env i s).2.2 = Except.ok d ∧
              currentModeOf d = some (expectedModeOf s)))) ∧
    (∀ (env : Env) (value : String) (ns : NetState),
        jsNumOpt ns.st.channelData.field7 ≠ some (reqMode value) →
        (handleModeChange env value ns).1.st.modeChangeInProgress = false) := by
  constructor
  · intro env i s
    unfold fetchChannelData
    cases henv : env.reads i with
    | error e => simp
    | ok data =>
        cases hm : s.modeChangeInProgress with
        | false => simp [hm]
        | true =>
            by_cases hcm : currentModeOf data = some (expectedModeOf s)
            all_goals
              simp only [expectedModeOf] at hcm
              simp [hm, hcm, expectedModeOf]
  · intro env value ns hne
    exact handleModeChange_flag env value ns hne

/-- Witness for C4's amended theorem: a pending change towards manual with a
matching fetched snapshot (`field7 = "1"`) clears the flag; the handler
branch is exercised on the always-rejecting environment. -/
theorem modeFlag_clear_characterization_w :
    ((fetchChannelData envNaN 0 nsPending.st).1.modeChangeInProgress = false ↔
      (nsPending.st.modeChangeInProgress = false ∨
        ∃ d, (fetchChannelData envNaN 0 nsPending.st).2.2 = Except.ok d ∧
          currentModeOf d = some (expectedModeOf nsPending.st))) ∧
    (handleModeChange envRej "manual" nsPending).1.st.modeChangeInProgress = false :=
  ⟨modeFlag_clear_characterization.1 envNaN 0 nsPending.st,
    modeFlag_clear_characterization.2 envRej "manual" nsPending (by decide)⟩

/-! ## C6 -/

/-- C6: when the guard of the mode toggle passes (a real change is
requested), the pending flag is cleared at the end of the cycle whatever the
executor's outcome, and on executor failure the displayed tab is reverted to
the inversion of the requested mode flag (`newMode === 0 ? "manual" :
"auto"`, line 199). -/
theorem mode_failure_reverts (env : Env) (value : String) (ns : NetState)
    (hne : jsNumOpt ns.st.channelData.field7 ≠ some (reqMode value)) :
    (handleModeChange env value ns).1.st.modeChangeInProgress = false ∧
    ((handleModeChange env value ns).2.1 = false →
      (handleModeChange env value ns).1.st.activeTab =
        (if reqMode value = 0 then "manual" else "auto")) := by
  constructor
  · simp [handleModeChange, hne]
  · intro hs
    simp only [handleModeChange] at hs ⊢
    rw [if_pos hne] at hs ⊢
    simp only at hs
    simp [hs]

/-- Witness for C6: toggling to manual over the always-rejecting environment
fails, so the tab ends at the inversion of the requested mode. -/
theorem mode_failure_reverts_w :
    (handleModeChange envRej "manual" ns0).1.st.modeChangeInProgress = false ∧
    ((handleModeChange envRej "manual" ns0).2.1 = false →
      (handleModeChange envRej "manual" ns0).1.st.activeTab =
        (if reqMode "manual" = 0 then "manual" else "auto")) :=
  mode_failure_reverts envRej "manual" ns0 (by decide)

/-! ## C8 -/

/-- C8: on the empty update payload, `verifyUpdate` compares the snapshot at
an undefined key with the payload at an undefined key (`undefined ===
undefined`), so it succeeds vacuously on every snapshot (first conjunct);
hence an attempt whose write is accepted reports success after the first
re-read, having verified nothing: one write issued, exactly two reads
consumed. -/
theorem empty_update_verifies_vacuously (env : Env) (ns : NetState)
    (retries : Nat) (d0 d1 : ChannelData) (b : String)
    (h0 : env.reads ns.ri = Except.ok d0)
    (h1 : env.reads (ns.ri + 1) = Except.ok d1)
    (hw : env.writes ns.wi = Except.ok b)
    (hb : numLEzero (jsNumber b) = false) :
    (∀ d : ChannelData, verifyUpdate d [] = true) ∧
    (attemptUpdate env [] retries 0 ns).2.1 = true ∧
    (attemptUpdate env [] retries 0 ns).1.ri = ns.ri + 2 ∧
    (attemptUpdate env [] retries 0 ns).2.2.length = 1 := by
  refine ⟨fun d => rfl, ?_⟩
  obtain ⟨s2, hone⟩ := oneAttempt_verified_first env [] ns d0 d1 b h0 h1 hw hb rfl
  have hgo := attemptGo_ok env [] retries (retries - (0 + 1)) 0 ns
    ⟨s2, ns.ri + 2, ns.wi + 1⟩ [mergeWrite d0 [] (env.times ns.wi)] hone
  simp [attemptUpdate, hgo, clearUpdating]

/-- Witness for C8: accepted write (body "42") over constant reads — the
empty update "verifies" on the first re-read. -/
theorem empty_update_verifies_vacuously_w :
    (∀ d : ChannelData, verifyUpdate d [] = true) ∧
    (attemptUpdate envAcc [] 5 0 ns0).2.1 = true ∧
    (attemptUpdate envAcc [] 5 0 ns0).1.ri = ns0.ri + 2 ∧
    (attemptUpdate envAcc [] 5 0 ns0).2.2.length = 1 :=
  empty_update_verifies_vacuously envAcc ns0 5 dAuto dAuto "42" rfl rfl rfl (by decide)

/-! ## C9 -/

/-- C9: a write response body that does not parse to a number (NaN) does not
satisfy `Number(result) <= 0`, so it is not treated as a rejection (first
conjunct) and the attempt proceeds to the verification loop exactly as if
the write had been accepted: with a matching first re-read it returns
success from this single attempt (remaining conjuncts). -/
theorem nan_write_response_not_rejected (env : Env) (u : Upd) (ns : NetState)
    (retries : Nat) (d0 d1 : ChannelData) (b : String)
    (h0 : env.reads ns.ri = Except.ok d0)
    (h1 : env.reads (ns.ri + 1) = Except.ok d1)
    (hw : env.writes ns.wi = Except.ok b)
    (hb : jsNumber b = none)
    (hv : verifyUpdate d1 u = true) :
    numLEzero (jsNumber b) = false ∧
    (attemptUpdate env u retries 0 ns).2.1 = true ∧
    (attemptUpdate env u retries 0 ns).2.2.length = 1 := by
  have hb' : numLEzero (jsNumber b) = false := by rw [hb]; rfl
  refine ⟨hb', ?_⟩
  obtain ⟨s2, hone⟩ := oneAttempt_verified_first env u ns d0 d1 b h0 h1 hw hb' hv
  have hgo := attemptGo_ok env u retries (retries - (0 + 1)) 0 ns
    ⟨s2, ns.ri + 2, ns.wi + 1⟩ [mergeWrite d0 u (env.times ns.wi)] hone
  simp [attemptUpdate, hgo, clearUpdating]

/-- Witness for C9: the body "abc" (NaN) is not a rejection; with the pump
field re-read as "1" the attempt succeeds at once. -/
theorem nan_write_response_not_rejected_w :
    numLEzero (jsNumber "abc") = false ∧
    (attemptUpdate envNaN [(Field.field5, "1")] 5 0 ns0).2.1 = true ∧
    (attemptUpdate envNaN [(Field.field5, "1")] 5 0 ns0).2.2.length = 1 :=
  nan_write_response_not_rejected envNaN [(Field.field5, "1")] ns0 5 dPumpOn dPumpOn
    "abc" rfl rfl rfl (by decide) (by decide)

end Irrig
